import Mathlib

/-!
Verification of the Perses authentication-layer helpers: root-URL
resolution behind reverse proxies, the OIDC extra-logout redirect
handler, and the `DurationString` validation contract.

The auth implementation (`getRootURL`, `newOIDCExtraLogoutHandler`) is
exercised by its test file but the implementation file itself is not in
the inspected sources, so those operations are modelled from the spec
(section 4 of spec.md); `DurationString.validate` and the unmarshal
methods are translated from `pkg/model/api/v1/common/durationstring.go`,
with the external `ParseDuration` collaborator modelled from the spec.
-/

namespace Perses

/-- The request state consulted by the resolver: the Host field, the
`X-Forwarded-Host` and `X-Forwarded-Proto` header values (empty string
meaning absent), whether a TLS session is established, and the scheme
the request's URL reports (empty for ordinary server requests). -/
structure Request where
  host : String
  xForwardedHost : String
  xForwardedProto : String
  hasTLS : Bool
  urlScheme : String
deriving DecidableEq

/-- A root URL value: scheme plus host (which may include a port). -/
structure RootURL where
  scheme : String
  host : String
deriving DecidableEq

/-- Rendered form of a root URL: scheme and host composed with "://",
hence no trailing slash and no path, query or fragment. -/
def RootURL.render (u : RootURL) : String :=
  u.scheme ++ "://" ++ u.host

/-- Split a character list at the first occurrence of `c`: returns the
prefix before it and, when `c` occurs, the remainder after it. -/
def splitFirst (c : Char) : List Char → List Char × Option (List Char)
  | [] => ([], none)
  | x :: xs =>
    if x = c then ([], some xs)
    else
      let r := splitFirst c xs
      (x :: r.1, r.2)

/-- Modelled from the spec: when a non-empty root override is configured
it is parsed as a URL and only its scheme+host component is used
(spec 4.1 step 1). Splits at "://" and takes the host up to the first
slash. -/
def parseRootOverride (s : String) : RootURL :=
  let p := splitFirst ':' s.data
  match p.2 with
  | some ('/' :: '/' :: rest) =>
    ⟨String.mk p.1, String.mk (splitFirst '/' rest).1⟩
  | _ => ⟨"", s⟩

/-- Modelled from the spec: `getRootURL` (spec 4.1, `resolve`), whose
implementation file is not in the inspected sources (only its tests
are). A non-empty override wins outright; otherwise the host prefers
`X-Forwarded-Host` over the request's Host field, and the scheme prefers
`X-Forwarded-Proto`, then TLS presence, then the request's reported
scheme, defaulting to "http". -/
def getRootURL (r : Request) (override : String) : RootURL :=
  if override ≠ "" then parseRootOverride override
  else
    let host := if r.xForwardedHost ≠ "" then r.xForwardedHost else r.host
    let scheme :=
      if r.xForwardedProto ≠ "" then r.xForwardedProto
      else if r.hasTLS then "https"
      else if r.urlScheme = "https" then "https"
      else "http"
    ⟨scheme, host⟩

/-- Split a character list on every occurrence of the separator `c`. -/
def splitSep (c : Char) : List Char → List (List Char)
  | [] => [[]]
  | x :: xs =>
    let r := splitSep c xs
    if x = c then [] :: r
    else
      match r with
      | [] => [[x]]
      | h :: t => (x :: h) :: t

/-- Modelled from the spec: reading a raw query string into a multi-map
of key/value pairs (spec 4.2 step d). Splits on "&", each non-empty
segment at its first "="; a segment without "=" maps its key to "". -/
def parseQueryChars (l : List Char) : List (String × String) :=
  ((splitSep '&' l).filter (fun seg => ¬seg.isEmpty)).map fun seg =>
    let p := splitFirst '=' seg
    (String.mk p.1, String.mk (p.2.getD []))

/-- A URL as this core manipulates it: everything before the first "?"
(the base), plus the parsed query multi-map. -/
structure URLModel where
  base : String
  query : List (String × String)
deriving DecidableEq

/-- Modelled from the spec: parsing the end-session endpoint as a URL
(spec 4.2 step c). Parsing an empty string is not an error: it yields
an empty base and an empty query, and processing continues. -/
def parseURL (s : String) : URLModel :=
  let p := splitFirst '?' s.data
  ⟨String.mk p.1, parseQueryChars (p.2.getD [])⟩

/-- Serialize a query multi-map back into a raw query string. -/
def encodeQuery : List (String × String) → String
  | [] => ""
  | [(k, v)] => k ++ "=" ++ v
  | (k, v) :: p :: rest => k ++ "=" ++ v ++ "&" ++ encodeQuery (p :: rest)

/-- Re-serialize a URL: the base, then "?" and the encoded query when
the query is non-empty. -/
def URLModel.render (u : URLModel) : String :=
  if u.query.isEmpty then u.base else u.base ++ "?" ++ encodeQuery u.query

/-- Set `k` to `v` in a query multi-map, overwriting every existing
value under `k` (the behavior of Go's `url.Values.Set`). -/
def setQueryValue (q : List (String × String)) (k v : String) :
    List (String × String) :=
  q.filter (fun p => p.1 ≠ k) ++ [(k, v)]

/-- The logout section of the OIDC provider configuration. -/
structure OIDCLogout where
  enabled : Bool
  logoutRedirectParamName : String
deriving DecidableEq

/-- The OIDC provider configuration, reduced to the fields this core
consumes. -/
structure OIDCProvider where
  logout : OIDCLogout
deriving DecidableEq

/-- The relying-party capability set the handler consumes:
`GetEndSessionEndpoint()` and `OAuthConfig().ClientID`. -/
structure RelyingParty where
  endSessionEndpoint : String
  clientID : String
deriving DecidableEq

/-- An HTTP redirect response: status code and Location header value. -/
structure Response where
  status : Nat
  location : String
deriving DecidableEq

/-- Modelled from the spec: the redirect parameter name (spec 4.2
step 2) — the literal default when the configured name is empty,
otherwise the configured name verbatim. -/
def logoutParamName (cfg : OIDCLogout) : String :=
  if cfg.logoutRedirectParamName = "" then "post_logout_redirect_uri"
  else cfg.logoutRedirectParamName

/-- Modelled from the spec: the URL the enabled logout handler redirects
to (spec 4.2 step 3) — parse the end-session endpoint, keep its query,
set the redirect parameter to the resolved root URL's string form, set
client_id to the relying party's ClientID, and re-serialize. -/
def oidcLogoutLocation (cfg : OIDCLogout) (rp : RelyingParty)
    (override : String) (r : Request) : URLModel :=
  let root := getRootURL r override
  let u := parseURL rp.endSessionEndpoint
  let q :=
    setQueryValue (setQueryValue u.query (logoutParamName cfg) root.render)
      "client_id" rp.clientID
  ⟨u.base, q⟩

/-- Modelled from the spec: the per-request behavior of the enabled
logout handler — it always succeeds, issuing a 302 Found redirect to the
merged URL (spec 4.2 steps f and g). -/
def oidcLogoutHandler (cfg : OIDCLogout) (rp : RelyingParty)
    (override : String) (r : Request) : Except String Response :=
  Except.ok ⟨302, (oidcLogoutLocation cfg rp override r).render⟩

/-- Modelled from the spec: `newOIDCExtraLogoutHandler` (spec 4.2,
`build`), whose implementation file is not in the inspected sources
(only its tests are). When logout is disabled it returns a nil handler
and no error; otherwise it returns the handler closed over the config,
the relying party and the root override. -/
def newOIDCExtraLogoutHandler (provider : OIDCProvider)
    (rp : RelyingParty) (override : String) :
    Except String (Option (Request → Except String Response)) :=
  if provider.logout.enabled then
    Except.ok (some (oidcLogoutHandler provider.logout rp override))
  else Except.ok none

/-- Recognize one duration unit token at the head of the input and
return its rank in the grammar's fixed order
y < w < d < h < m < s < ms, together with the remaining input. An "m"
immediately followed by "s" can only be the "ms" unit, since the "s"
component requires digits of its own. -/
def durUnitTok : List Char → Option (Nat × List Char)
  | 'y' :: rest => some (0, rest)
  | 'w' :: rest => some (1, rest)
  | 'd' :: rest => some (2, rest)
  | 'h' :: rest => some (3, rest)
  | 'm' :: 's' :: rest => some (6, rest)
  | 'm' :: rest => some (4, rest)
  | 's' :: rest => some (5, rest)
  | _ => none

/-- Match a sequence of digits+unit components whose unit ranks are
strictly increasing and at least `minRank`. The fuel argument bounds the
recursion; each step consumes at least two characters, so fuel equal to
the input length always suffices. -/
def durMatchLoop : Nat → List Char → Nat → Bool
  | 0, l, _ => l.isEmpty
  | Nat.succ f, l, minRank =>
    match l with
    | [] => true
    | _ :: _ =>
      let p := l.span (fun c => c.isDigit)
      if p.1.isEmpty then false
      else
        match durUnitTok p.2 with
        | none => false
        | some (rk, rest) => decide (minRank ≤ rk) && durMatchLoop f rest (rk + 1)

/-- Whether a string matches the duration grammar declared on
`DurationString` (durationstring.go): the pattern
(Ny)?(Nw)?(Nd)?(Nh)?(Nm)?(Ns)?(Nms)?, every component optional. -/
def matchesDurationGrammar (s : String) : Bool :=
  durMatchLoop (s.length + 1) s.data 0

/-- Modelled from the spec: the external duration parser `ParseDuration`
is not part of the inspected sources (only its caller
`DurationString.validate` is); per the spec's validation contract and
the grammar annotation on `DurationString` it accepts exactly the
strings matching the y/w/d/h/m/s/ms grammar. -/
def parseDurationAccepts (s : String) : Bool :=
  matchesDurationGrammar s

/-- `DurationString` is a plain string preserving its original input
form (durationstring.go). -/
abbrev DurationString := String

/-- The shape of `DurationString.validate` (durationstring.go),
parametric in the duration parser it consults: an empty string is
accepted without consulting the parser at all; any other string is
accepted exactly when the parser accepts it. -/
def validateWith (parse : String → Bool) (d : DurationString) : Bool :=
  if d.length = 0 then true else parse d

/-- `DurationString.validate` from durationstring.go: accept the empty
string outright, otherwise defer to `ParseDuration`. -/
def DurationString.validate (d : DurationString) : Bool :=
  validateWith parseDurationAccepts d

/-- `DurationString.UnmarshalJSON` from durationstring.go, at the level
of the already-decoded string value: validate it and, on success, store
it unchanged. -/
def DurationString.unmarshalJSON (s : String) : Option DurationString :=
  if DurationString.validate s then some s else none

/-- `DurationString.UnmarshalYAML` from durationstring.go, at the level
of the already-decoded string value: validate it and, on success, store
it unchanged. -/
def DurationString.unmarshalYAML (s : String) : Option DurationString :=
  if DurationString.validate s then some s else none

/-- Re-serializing a `DurationString`: the type has no custom marshaller
(durationstring.go), so the stored string is emitted verbatim. -/
def DurationString.marshal (d : DurationString) : String := d

/-- Prepending "?" to any string yields a non-empty string. -/
theorem qmark_prepend_ne_empty (s : String) : "?" ++ s ≠ "" :=
  fun h => List.cons_ne_nil '?' s.data (congrArg String.data h)

/-- C5: with an empty override, the resolved host is the
`X-Forwarded-Host` value whenever that header is present and non-empty,
and the request's own Host field when it is absent or empty. -/
theorem getRootURL_forwarded_host (r : Request) :
    (r.xForwardedHost ≠ "" → (getRootURL r "").host = r.xForwardedHost) ∧
    (r.xForwardedHost = "" → (getRootURL r "").host = r.host) := by
  constructor <;> intro h <;> simp [getRootURL, h]

/-- Instance of `getRootURL_forwarded_host` at the proxied request of
the test table: the forwarded host wins over the internal Host field,
and without the header the Host field is used. -/
theorem getRootURL_forwarded_host_witness :
    (getRootURL ⟨"internal:8080", "public.example.com", "", false, ""⟩ "").host
      = "public.example.com" ∧
    (getRootURL ⟨"localhost:8080", "", "", false, ""⟩ "").host = "localhost:8080" :=
  ⟨(getRootURL_forwarded_host ⟨"internal:8080", "public.example.com", "", false, ""⟩).1
      (by decide),
   (getRootURL_forwarded_host ⟨"localhost:8080", "", "", false, ""⟩).2 (by decide)⟩

/-- C6: with an empty override, the resolved scheme is the
`X-Forwarded-Proto` value whenever that header is present and non-empty,
overriding TLS inference; when the header is absent the scheme is
"https" whenever a TLS session is established. -/
theorem getRootURL_forwarded_proto (r : Request) :
    (r.xForwardedProto ≠ "" → (getRootURL r "").scheme = r.xForwardedProto) ∧
    (r.xForwardedProto = "" → r.hasTLS = true → (getRootURL r "").scheme = "https") := by
  refine ⟨fun h => ?_, fun h h2 => ?_⟩ <;> simp [getRootURL, h]
  simp [h2]

/-- Instance of `getRootURL_forwarded_proto` at the test table's
requests: a forwarded "https" wins without TLS, and TLS presence alone
yields "https". -/
theorem getRootURL_forwarded_proto_witness :
    (getRootURL ⟨"localhost:8080", "", "https", false, ""⟩ "").scheme = "https" ∧
    (getRootURL ⟨"perses.example.com", "", "", true, ""⟩ "").scheme = "https" :=
  ⟨(getRootURL_forwarded_proto ⟨"localhost:8080", "", "https", false, ""⟩).1 (by decide),
   (getRootURL_forwarded_proto ⟨"perses.example.com", "", "", true, ""⟩).2
      (by decide) (by decide)⟩

/-- C7 counterexample: a request with no forwarded headers, no TLS and
an empty override whose URL reports scheme "https" resolves to
"https://example.com", not "http://example.com", because the reported
scheme participates in scheme inference (spec 4.1 step 3). -/
theorem getRootURL_reported_scheme_counterexample :
    (Request.mk "example.com" "" "" false "https").xForwardedHost = "" ∧
    (Request.mk "example.com" "" "" false "https").xForwardedProto = "" ∧
    (Request.mk "example.com" "" "" false "https").hasTLS = false ∧
    (getRootURL (Request.mk "example.com" "" "" false "https") "").render
      = "https://example.com" ∧
    (getRootURL (Request.mk "example.com" "" "" false "https") "").render
      ≠ "http://" ++ (Request.mk "example.com" "" "" false "https").host := by
  decide

/-- C7 (amended): with no forwarded headers, no TLS, an empty override
and a reported scheme other than "https" (as for ordinary server
requests, whose reported scheme is empty), the resolver returns exactly
"http://" followed by the host, with no trailing slash and no
path, query or fragment. -/
theorem getRootURL_plain_http (r : Request) (h1 : r.xForwardedHost = "")
    (h2 : r.xForwardedProto = "") (h3 : r.hasTLS = false)
    (h4 : r.urlScheme ≠ "https") :
    (getRootURL r "").render = "http://" ++ r.host := by
  have hs : ("http" ++ "://" : String) = "http://" := rfl
  simp [getRootURL, RootURL.render, h1, h2, h3, h4, hs]

/-- Instance of `getRootURL_plain_http` at the basic test request: a
plain request over "localhost:8080" resolves to
"http://localhost:8080". -/
theorem getRootURL_plain_http_witness :
    (getRootURL ⟨"localhost:8080", "", "", false, ""⟩ "").render
      = "http://localhost:8080" :=
  (getRootURL_plain_http ⟨"localhost:8080", "", "", false, ""⟩ (by decide) (by decide)
      (by decide) (by decide)).trans (by decide)

/-- C2: whenever logout is disabled in the provider configuration, the
builder returns a nil handler together with a nil error, for every
relying party and root override. -/
theorem newOIDCExtraLogoutHandler_disabled_nil (provider : OIDCProvider)
    (rp : RelyingParty) (override : String)
    (h : provider.logout.enabled = false) :
    newOIDCExtraLogoutHandler provider rp override = Except.ok none := by
  simp [newOIDCExtraLogoutHandler, h]

/-- Instance of `newOIDCExtraLogoutHandler_disabled_nil` at the disabled
test configuration. -/
theorem newOIDCExtraLogoutHandler_disabled_nil_witness :
    newOIDCExtraLogoutHandler ⟨⟨false, ""⟩⟩
      ⟨"https://provider.example.com/logout", "client123"⟩ "" = Except.ok none :=
  newOIDCExtraLogoutHandler_disabled_nil ⟨⟨false, ""⟩⟩
    ⟨"https://provider.example.com/logout", "client123"⟩ "" rfl

/-- C1 counterexample: when the end-session endpoint already carries a
`client_id` query parameter, that pre-existing pair does not survive:
the handler overwrites it with the relying party's ClientID, so the
claim that no existing parameter is dropped or altered fails. -/
theorem logout_drops_preexisting_client_id :
    ("client_id", "old")
        ∈ (parseURL "https://p.example.com/logout?client_id=old").query ∧
    ("client_id", "old")
        ∉ (oidcLogoutLocation ⟨true, ""⟩
            ⟨"https://p.example.com/logout?client_id=old", "c1"⟩ ""
            ⟨"h:8080", "", "", false, ""⟩).query ∧
    ("client_id", "c1")
        ∈ (oidcLogoutLocation ⟨true, ""⟩
            ⟨"https://p.example.com/logout?client_id=old", "c1"⟩ ""
            ⟨"h:8080", "", "", false, ""⟩).query := by
  decide

/-- The redirect URL's query, computed in closed form: the endpoint's
pre-existing pairs under keys other than the redirect parameter and
"client_id", followed by the two pairs the core sets. -/
theorem oidcLogoutLocation_query_eq (cfg : OIDCLogout) (rp : RelyingParty)
    (override : String) (r : Request)
    (hk : logoutParamName cfg ≠ "client_id") :
    (oidcLogoutLocation cfg rp override r).query =
      (parseURL rp.endSessionEndpoint).query.filter
          (fun p => p.1 ≠ logoutParamName cfg ∧ p.1 ≠ "client_id")
        ++ [(logoutParamName cfg, (getRootURL r override).render),
            ("client_id", rp.clientID)] := by
  unfold oidcLogoutLocation setQueryValue
  dsimp only
  rw [List.filter_append, List.filter_filter, List.append_assoc]
  congr 1
  · apply List.filter_congr
    intro a _
    simp [Bool.and_comm]
  · simp [hk]

/-- C1 (amended): provided the redirect parameter name differs from
"client_id", the redirect URL's query is exactly the endpoint's
pre-existing pairs whose keys are neither the redirect parameter nor
"client_id", all unchanged, followed by the redirect parameter bound to
the resolved root URL's string form and "client_id" bound to the relying
party's ClientID: pairs under those two keys are overwritten, every
other pre-existing pair survives unchanged. -/
theorem logout_query_merge_spec (cfg : OIDCLogout) (rp : RelyingParty)
    (override : String) (r : Request)
    (hk : logoutParamName cfg ≠ "client_id") :
    (oidcLogoutLocation cfg rp override r).query =
      (parseURL rp.endSessionEndpoint).query.filter
          (fun p => p.1 ≠ logoutParamName cfg ∧ p.1 ≠ "client_id")
        ++ [(logoutParamName cfg, (getRootURL r override).render),
            ("client_id", rp.clientID)] :=
  oidcLogoutLocation_query_eq cfg rp override r hk

/-- Instance of `logout_query_merge_spec` at the test table's endpoint
that already carries `existing=param`: the merged query is exactly the
surviving pair plus the two added keys. -/
theorem logout_query_merge_spec_witness :
    (oidcLogoutLocation ⟨true, ""⟩
        ⟨"https://p.example.com/logout?existing=param", "c1"⟩ ""
        ⟨"h:8080", "", "", false, ""⟩).query =
      [("existing", "param"), ("post_logout_redirect_uri", "http://h:8080"),
       ("client_id", "c1")] :=
  (logout_query_merge_spec ⟨true, ""⟩
      ⟨"https://p.example.com/logout?existing=param", "c1"⟩ ""
      ⟨"h:8080", "", "", false, ""⟩ (by decide)).trans (by decide)

/-- C3: with logout enabled and an empty end-session endpoint, the
builder still yields a handler; on any request that handler succeeds and
issues a 302 Found whose Location is non-empty and consists only of the
merged query string (the degenerate URL has an empty base). -/
theorem logout_empty_endpoint_best_effort (cfg : OIDCLogout)
    (rp : RelyingParty) (override : String) (r : Request)
    (hen : cfg.enabled = true) (hrp : rp.endSessionEndpoint = "") :
    newOIDCExtraLogoutHandler ⟨cfg⟩ rp override
      = Except.ok (some (oidcLogoutHandler cfg rp override)) ∧
    oidcLogoutHandler cfg rp override r
      = Except.ok ⟨302, (oidcLogoutLocation cfg rp override r).render⟩ ∧
    (oidcLogoutLocation cfg rp override r).base = "" ∧
    (oidcLogoutLocation cfg rp override r).render
      = "?" ++ encodeQuery (oidcLogoutLocation cfg rp override r).query ∧
    (oidcLogoutLocation cfg rp override r).render ≠ "" := by
  have hu : parseURL "" = ⟨"", []⟩ := by decide
  have hloc : oidcLogoutLocation cfg rp override r =
      ⟨"", setQueryValue
            (setQueryValue [] (logoutParamName cfg) (getRootURL r override).render)
            "client_id" rp.clientID⟩ := by
    unfold oidcLogoutLocation
    rw [hrp, hu]
  have hqe : (setQueryValue
      (setQueryValue [] (logoutParamName cfg) (getRootURL r override).render)
      "client_id" rp.clientID).isEmpty = false := by
    simp [setQueryValue]
  have hrender : (oidcLogoutLocation cfg rp override r).render
      = "?" ++ encodeQuery (oidcLogoutLocation cfg rp override r).query := by
    rw [hloc]
    simp [URLModel.render, hqe]
  refine ⟨by simp [newOIDCExtraLogoutHandler, hen], rfl, by rw [hloc], hrender, ?_⟩
  rw [hrender]
  exact qmark_prepend_ne_empty _

/-- Instance of `logout_empty_endpoint_best_effort` at the test's empty
endpoint and client "test-client": the handler succeeds with a 302 and
the Location is just the merged query string. -/
theorem logout_empty_endpoint_best_effort_witness :
    oidcLogoutHandler ⟨true, ""⟩ ⟨"", "test-client"⟩ ""
        ⟨"localhost:8080", "", "", false, ""⟩
      = Except.ok ⟨302,
          (oidcLogoutLocation ⟨true, ""⟩ ⟨"", "test-client"⟩ ""
            ⟨"localhost:8080", "", "", false, ""⟩).render⟩ ∧
    (oidcLogoutLocation ⟨true, ""⟩ ⟨"", "test-client"⟩ ""
        ⟨"localhost:8080", "", "", false, ""⟩).render
      = "?post_logout_redirect_uri=http://localhost:8080&client_id=test-client" :=
  ⟨(logout_empty_endpoint_best_effort ⟨true, ""⟩ ⟨"", "test-client"⟩ ""
      ⟨"localhost:8080", "", "", false, ""⟩ (by decide) (by decide)).2.1,
   by decide⟩

/-- C4: with logout enabled, the key carrying the root URL is exactly
"post_logout_redirect_uri" when the configured redirectParamName is
empty, and exactly the configured name verbatim otherwise; the chosen
key (when distinct from "client_id") is bound to the resolved root URL
in the redirect's query, and when a name other than the default is
configured the default key is absent from the two keys the core adds. -/
theorem logout_redirect_param_name_spec (cfg : OIDCLogout)
    (rp : RelyingParty) (override : String) (r : Request)
    (hen : cfg.enabled = true) :
    (cfg.logoutRedirectParamName = "" →
      logoutParamName cfg = "post_logout_redirect_uri") ∧
    (cfg.logoutRedirectParamName ≠ "" →
      logoutParamName cfg = cfg.logoutRedirectParamName) ∧
    (logoutParamName cfg ≠ "client_id" →
      (logoutParamName cfg, (getRootURL r override).render)
        ∈ (oidcLogoutLocation cfg rp override r).query) ∧
    (cfg.logoutRedirectParamName ≠ "" →
      cfg.logoutRedirectParamName ≠ "post_logout_redirect_uri" →
      "post_logout_redirect_uri" ∉ [logoutParamName cfg, "client_id"]) := by
  refine ⟨fun h => by simp [logoutParamName, h],
          fun h => by simp [logoutParamName, h], fun hk => ?_, fun h h2 => ?_⟩
  · rw [oidcLogoutLocation_query_eq cfg rp override r hk]
    simp
  · simp [logoutParamName, h]
    exact fun h3 => h2 h3.symm

/-- Instance of `logout_redirect_param_name_spec` at the cognito test
configuration: the custom name "logout_uri" carries the root URL and the
default key is not among the added keys. -/
theorem logout_redirect_param_name_spec_witness :
    logoutParamName ⟨true, "logout_uri"⟩ = "logout_uri" ∧
    ("logout_uri", "https://app.example.com")
      ∈ (oidcLogoutLocation ⟨true, "logout_uri"⟩
          ⟨"https://cognito.amazonaws.com/logout", "cognito-client"⟩ ""
          ⟨"app.example.com", "", "", true, ""⟩).query ∧
    "post_logout_redirect_uri" ∉ [logoutParamName ⟨true, "logout_uri"⟩, "client_id"] :=
  ⟨(logout_redirect_param_name_spec ⟨true, "logout_uri"⟩
      ⟨"https://cognito.amazonaws.com/logout", "cognito-client"⟩ ""
      ⟨"app.example.com", "", "", true, ""⟩ (by decide)).2.1 (by decide),
   by
    have h := (logout_redirect_param_name_spec ⟨true, "logout_uri"⟩
      ⟨"https://cognito.amazonaws.com/logout", "cognito-client"⟩ ""
      ⟨"app.example.com", "", "", true, ""⟩ (by decide)).2.2.1 (by decide)
    exact (by decide : (getRootURL
      (⟨"app.example.com", "", "", true, ""⟩ : Request) "").render
        = "https://app.example.com") ▸ h,
   (logout_redirect_param_name_spec ⟨true, "logout_uri"⟩
      ⟨"https://cognito.amazonaws.com/logout", "cognito-client"⟩ ""
      ⟨"app.example.com", "", "", true, ""⟩ (by decide)).2.2.2 (by decide) (by decide)⟩

/-- C9: the built handler is deterministic — for a fixed config,
relying party and override, two requests agreeing on Host, both
forwarded headers, TLS presence and the reported scheme receive
identical responses, in particular byte-identical Location values. -/
theorem oidcLogoutHandler_deterministic (cfg : OIDCLogout)
    (rp : RelyingParty) (override : String) (r r₂ : Request)
    (h1 : r.host = r₂.host) (h2 : r.xForwardedHost = r₂.xForwardedHost)
    (h3 : r.xForwardedProto = r₂.xForwardedProto) (h4 : r.hasTLS = r₂.hasTLS)
    (h5 : r.urlScheme = r₂.urlScheme) :
    oidcLogoutHandler cfg rp override r = oidcLogoutHandler cfg rp override r₂ := by
  have : r = r₂ := by
    cases r
    cases r₂
    simp_all
  rw [this]

/-- Instance of `oidcLogoutHandler_deterministic`: two invocations on
the same request state produce the same response. -/
theorem oidcLogoutHandler_deterministic_witness :
    oidcLogoutHandler ⟨true, ""⟩ ⟨"https://provider.example.com/logout", "client123"⟩ ""
        ⟨"localhost:8080", "", "", false, ""⟩
      = oidcLogoutHandler ⟨true, ""⟩ ⟨"https://provider.example.com/logout", "client123"⟩ ""
        ⟨"localhost:8080", "", "", false, ""⟩ :=
  oidcLogoutHandler_deterministic ⟨true, ""⟩
    ⟨"https://provider.example.com/logout", "client123"⟩ ""
    ⟨"localhost:8080", "", "", false, ""⟩ ⟨"localhost:8080", "", "", false, ""⟩
    rfl rfl rfl rfl rfl

/-- C8: every string matching the duration grammar is accepted by
deserialization (JSON and YAML), stored verbatim, and re-serialized as
exactly the original input, with no unit normalization. -/
theorem durationString_roundTrip (s : String)
    (h : matchesDurationGrammar s = true) :
    DurationString.unmarshalJSON s = some s ∧
    DurationString.unmarshalYAML s = some s ∧
    DurationString.marshal s = s := by
  have hv : DurationString.validate s = true := by
    unfold DurationString.validate validateWith parseDurationAccepts
    split
    · rfl
    · exact h
  simp [DurationString.unmarshalJSON, DurationString.unmarshalYAML,
    DurationString.marshal, hv]

/-- Instance of `durationString_roundTrip` at "14d": the stored and
re-serialized value is "14d", never an equivalent like "2w". -/
theorem durationString_roundTrip_witness :
    DurationString.unmarshalJSON "14d" = some "14d" ∧
    DurationString.unmarshalYAML "14d" = some "14d" ∧
    DurationString.marshal "14d" = "14d" :=
  durationString_roundTrip "14d" (by decide)

/-- C10: validation accepts a length-zero string without consulting the
duration parser — for every parser, `validateWith` returns success on
the empty string, consults the parser exactly on non-empty strings, and
unmarshalling an empty duration field from JSON or YAML succeeds. -/
theorem durationString_validate_empty_skips_parsing
    (parse : String → Bool) (s : String) :
    (s.length = 0 → validateWith parse s = true) ∧
    (s.length ≠ 0 → validateWith parse s = parse s) ∧
    DurationString.unmarshalJSON "" = some "" ∧
    DurationString.unmarshalYAML "" = some "" := by
  refine ⟨fun h => by simp [validateWith, h],
          fun h => by simp [validateWith, h], by decide, by decide⟩

/-- Instance of `durationString_validate_empty_skips_parsing` with a
parser rejecting everything: the empty string still validates, while a
non-empty string is decided by the parser. -/
theorem durationString_validate_empty_skips_parsing_witness :
    validateWith (fun _ => false) "" = true ∧
    validateWith (fun _ => false) "x" = false ∧
    DurationString.unmarshalJSON "" = some "" := by
  refine ⟨(durationString_validate_empty_skips_parsing (fun _ => false) "").1 (by decide),
          ?_,
          (durationString_validate_empty_skips_parsing (fun _ => false) "").2.2.1⟩
  exact (durationString_validate_empty_skips_parsing (fun _ => false) "x").2.1 (by decide)

end Perses
